import Mathlib

/-
Verification of the real-time orbital position engine
(src/app/workers/satellite-worker.ts of the sat-tracker repository).

The worker's own code is embedded shallowly:
- JavaScript numbers are modelled as `JSNum`: either an exact rational value
  (`fin q`) or a non-finite value (`nonfin`, covering NaN and the infinities).
  Arithmetic on finite values is exact rational arithmetic; any operation
  touching a non-finite value, a division by zero, or a square root of a
  negative number yields `nonfin`, matching what `isFinite` later observes.
- The satellite.js library calls (`twoline2satrec`, `propagate`, `gstime`,
  `eciToEcf`) are external to the repository and are kept abstract as the
  fields of a `SatLib` parameter; a parse that throws is modelled as `none`.
- The transcendental functions of `Math` are kept abstract as a `JSMath`
  parameter; `Math.PI` is the concrete IEEE-754 double, an exact rational.
- The worker's module-level `satelliteCache` (a string-keyed `Map`) is an
  association list threaded explicitly through every function that uses it.
-/

/-- A JavaScript number: an exact finite rational, or a non-finite value
(NaN, Infinity, -Infinity) that fails `isFinite`. -/
inductive JSNum where
  | fin (q : ℚ)
  | nonfin
  deriving DecidableEq, Repr

/-- `Number.isFinite` / global `isFinite` on a `JSNum`. -/
def JSNum.isFinite : JSNum → Bool
  | .fin _ => true
  | .nonfin => false

/-- Truncation toward zero, as used by JavaScript's `%` operator. -/
def qtrunc (q : ℚ) : ℤ := if q < 0 then -(⌊-q⌋) else ⌊q⌋

/-- JavaScript's remainder `a % b` on finite operands with `b ≠ 0`:
`a - b * trunc (a / b)`; the result carries the sign of the dividend. -/
def jsMod (a b : ℚ) : ℚ := a - b * ((qtrunc (a / b) : ℤ) : ℚ)

/-- JavaScript `+` on modelled numbers. -/
def jadd : JSNum → JSNum → JSNum
  | .fin a, .fin b => .fin (a + b)
  | _, _ => .nonfin

/-- JavaScript `-` on modelled numbers. -/
def jsub : JSNum → JSNum → JSNum
  | .fin a, .fin b => .fin (a - b)
  | _, _ => .nonfin

/-- JavaScript `*` on modelled numbers. -/
def jmul : JSNum → JSNum → JSNum
  | .fin a, .fin b => .fin (a * b)
  | _, _ => .nonfin

/-- JavaScript `/` on modelled numbers; division by zero is non-finite. -/
def jdiv : JSNum → JSNum → JSNum
  | .fin a, .fin b => if b = 0 then .nonfin else .fin (a / b)
  | _, _ => .nonfin

/-- JavaScript `%` on modelled numbers; a zero divisor gives NaN. -/
def jmod : JSNum → JSNum → JSNum
  | .fin a, .fin b => if b = 0 then .nonfin else .fin (jsMod a b)
  | _, _ => .nonfin

/-- A finite numeric literal. -/
def jnum (q : ℚ) : JSNum := .fin q

/-- The exact rational value of the IEEE-754 double `Math.PI`. -/
def mathPI : ℚ := 884279719003555 / 281474976710656

/-- `Math.PI` as a modelled number. -/
def jpi : JSNum := .fin mathPI

/-- The abstract transcendental functions of `Math` used by the worker. -/
structure JSMath where
  sin : ℚ → ℚ
  cos : ℚ → ℚ
  atan2 : ℚ → ℚ → ℚ
  sqrt : ℚ → ℚ

/-- `Math.sin` lifted to modelled numbers (NaN in, NaN out). -/
def jsin (M : JSMath) : JSNum → JSNum
  | .fin q => .fin (M.sin q)
  | .nonfin => .nonfin

/-- `Math.cos` lifted to modelled numbers. -/
def jcos (M : JSMath) : JSNum → JSNum
  | .fin q => .fin (M.cos q)
  | .nonfin => .nonfin

/-- `Math.atan2` lifted to modelled numbers. -/
def jatan2 (M : JSMath) : JSNum → JSNum → JSNum
  | .fin a, .fin b => .fin (M.atan2 a b)
  | _, _ => .nonfin

/-- `Math.sqrt` lifted to modelled numbers; negative input gives NaN. -/
def jsqrt (M : JSMath) : JSNum → JSNum
  | .fin q => if q < 0 then .nonfin else .fin (M.sqrt q)
  | .nonfin => .nonfin

/-- A 3-vector of JavaScript numbers (ECI/ECF position or velocity). -/
structure JVec3 where
  x : JSNum
  y : JSNum
  z : JSNum
  deriving DecidableEq, Repr

/-- The result object of satellite.js `propagate`: either field may be
absent, and present components may be non-finite. -/
structure PosVel where
  position : Option JVec3
  velocity : Option JVec3
  deriving DecidableEq, Repr

/-- A parsed satellite record, as far as the worker inspects it: the three
fields checked by the sanity test, plus an opaque tag standing for the rest
of the record (so that distinct parses can yield distinct records). -/
structure Satrec where
  no : JSNum
  ecco : JSNum
  inclo : JSNum
  tag : ℕ
  deriving DecidableEq, Repr

/-- The satellite.js surface used by the worker, kept abstract. A
`twoline2satrec` call that throws is modelled as `none`. -/
structure SatLib where
  twoline2satrec : String → String → Option Satrec
  propagate : Satrec → ℚ → PosVel
  gstime : ℚ → ℚ
  eciToEcf : JVec3 → ℚ → JVec3

/-- The `tle` field of the worker's `SatelliteData`. -/
structure TLE where
  line1 : String
  line2 : String
  deriving DecidableEq, Repr

/-- Input catalog entry (`SatelliteData` in the worker). -/
structure SatelliteData where
  name : String
  noradId : String
  category : String
  tle : TLE
  deriving DecidableEq, Repr

/-- The `position` field of an output sample. -/
structure GeoPosition where
  lat : JSNum
  lon : JSNum
  alt : JSNum
  deriving DecidableEq, Repr

/-- Output sample (`SatellitePosition` in the worker). -/
structure SatellitePosition where
  name : String
  noradId : String
  category : String
  position : GeoPosition
  velocity : JVec3
  visible : Bool
  deriving DecidableEq, Repr

/-- The worker's module-level `satelliteCache`, threaded explicitly. -/
abbrev Cache := List (String × Satrec)

/-- `Map.has` / `Map.get` combined: first binding of a key, if any. -/
def cacheFind : Cache → String → Option Satrec
  | [], _ => none
  | (k, v) :: rest, key => if k = key then some v else cacheFind rest key

/-- The composite cache key built by `parseTLE`:
`` `${satellite.noradId}-${satellite.tle.line1}-${satellite.tle.line2}` ``. -/
def mkCacheKey (satellite : SatelliteData) : String :=
  satellite.noradId ++ "-" ++ satellite.tle.line1 ++ "-" ++ satellite.tle.line2

/-- `parseTLE` (worker lines 60-75): return the cached record on a key hit,
otherwise parse, cache on success, and return `null` (`none`) if the parse
throws. The updated cache is returned alongside the result. -/
def parseTLE (L : SatLib) (satellite : SatelliteData) (cache : Cache) :
    Option Satrec × Cache :=
  let cacheKey := mkCacheKey satellite
  match cacheFind cache cacheKey with
  | some satrec => (some satrec, cache)
  | none =>
    match L.twoline2satrec satellite.tle.line1 satellite.tle.line2 with
    | some satrec => (some satrec, (cacheKey, satrec) :: cache)
    | none => (none, cache)

/-- Result record of `ecefToGeodetic`. -/
structure GeodeticResult where
  latitude : JSNum
  longitude : JSNum
  height : JSNum
  deriving DecidableEq, Repr

/-- One pass of the latitude-refinement loop body of `ecefToGeodetic`
(worker lines 87-92): recompute `sinLat`, the radius of curvature `N`, the
altitude, and the refined latitude. -/
def latStep (M : JSMath) (a e2 z p : JSNum) (lat : JSNum) : JSNum :=
  let sinLat := jsin M lat
  let N := jdiv a (jsqrt M (jsub (jnum 1) (jmul (jmul e2 sinLat) sinLat)))
  let alt := jsub (jdiv p (jcos M lat)) N
  jatan2 M z (jmul p (jsub (jnum 1) (jmul e2 (jdiv N (jadd N alt)))))

/-- The `for (let i = 0; i < 5; i++)` loop of `ecefToGeodetic`, translated
with an explicit remaining-iteration count. -/
def latLoop (M : JSMath) (a e2 z p : JSNum) : ℕ → JSNum → JSNum
  | 0, lat => lat
  | n + 1, lat => latLoop M a e2 z p n (latStep M a e2 z p lat)

/-- `ecefToGeodetic` (worker lines 78-99): WGS84 ellipsoidal inversion from
Earth-fixed Cartesian km to geodetic latitude/longitude (radians) and
height (km), with five fixed refinement iterations. -/
def ecefToGeodetic (M : JSMath) (x y z : JSNum) : GeodeticResult :=
  let a := jnum (6378137 / 1000)
  let f := jdiv (jnum 1) (jnum (298257223563 / 1000000000))
  let e2 := jmul f (jsub (jnum 2) f)
  let lon := jatan2 M y x
  let p := jsqrt M (jadd (jmul x x) (jmul y y))
  let lat := latLoop M a e2 z p 5 (jatan2 M z (jmul p (jsub (jnum 1) e2)))
  let sinLat := jsin M lat
  let N := jdiv a (jsqrt M (jsub (jnum 1) (jmul (jmul e2 sinLat) sinLat)))
  let height := jsub (jdiv p (jcos M lat)) N
  { latitude := lat, longitude := lon, height := height }

/-- Argument record of `isSatelliteVisible`'s `position` parameter. -/
structure LatLonAlt where
  lat : ℚ
  lon : ℚ
  alt : ℚ
  deriving DecidableEq, Repr

/-- `isSatelliteVisible` (worker lines 101-133): below 200 km is never
visible; otherwise haversine distance on a 6371 km sphere under 2000 km.
The classifier operates on finite numbers, modelled as exact rationals. -/
def isSatelliteVisible (M : JSMath) (position : LatLonAlt)
    (observerLat observerLon observerAlt : ℚ) : Bool :=
  let earthRadius : ℚ := 6371
  let minAltitude : ℚ := 200
  if position.alt < minAltitude then false
  else
    let lat1 := observerLat * mathPI / 180
    let lon1 := observerLon * mathPI / 180
    let lat2 := position.lat * mathPI / 180
    let lon2 := position.lon * mathPI / 180
    let dlat := lat2 - lat1
    let dlon := lon2 - lon1
    let a := M.sin (dlat / 2) * M.sin (dlat / 2) +
      M.cos lat1 * M.cos lat2 * M.sin (dlon / 2) * M.sin (dlon / 2)
    let c := 2 * M.atan2 (M.sqrt a) (M.sqrt (1 - a))
    let distance := earthRadius * c
    decide (distance < 2000)

/-- The great-circle distance computed inside `isSatelliteVisible`'s
else-branch, factored out for specification purposes. -/
def haversineDistance (M : JSMath) (observerLat observerLon satLat satLon : ℚ) : ℚ :=
  let lat1 := observerLat * mathPI / 180
  let lon1 := observerLon * mathPI / 180
  let lat2 := satLat * mathPI / 180
  let lon2 := satLon * mathPI / 180
  let dlat := lat2 - lat1
  let dlon := lon2 - lon1
  let a := M.sin (dlat / 2) * M.sin (dlat / 2) +
    M.cos lat1 * M.cos lat2 * M.sin (dlon / 2) * M.sin (dlon / 2)
  let c := 2 * M.atan2 (M.sqrt a) (M.sqrt (1 - a))
  6371 * c

/-- Which `continue` (or the final push) the body of the propagation loop
reached for one catalog entry. The constructors correspond, in order, to:
`parseTLE` returning null (line 152); the satrec sanity check (lines
156-171); the two propagation-failure skips (lines 176-196); the geodetic
finiteness skip (lines 221-228); and a successfully pushed sample. -/
inductive Outcome where
  | parseFail
  | sanityFail
  | propFail
  | transformFail
  | ok (sample : SatellitePosition)
  deriving DecidableEq, Repr

/-- The body of the propagation loop after `parseTLE` has produced its
result (worker lines 151-258), deciding the entry's outcome. -/
def processParsed (L : SatLib) (M : JSMath) (date : ℚ) (satellite : SatelliteData) :
    Option Satrec → Outcome
  | none => .parseFail
  | some satrec =>
    if !satrec.no.isFinite || !satrec.ecco.isFinite || !satrec.inclo.isFinite then
      .sanityFail
    else
      let positionAndVelocity := L.propagate satrec date
      match positionAndVelocity.position with
      | none => .propFail
      | some pos =>
        if !pos.x.isFinite || !pos.y.isFinite || !pos.z.isFinite then .propFail
        else
          match positionAndVelocity.velocity with
          | none => .propFail
          | some vel =>
            let gmst := L.gstime date
            let posEcf := L.eciToEcf pos gmst
            let geodetic := ecefToGeodetic M posEcf.x posEcf.y posEcf.z
            let velocityEcf := L.eciToEcf vel gmst
            if !geodetic.latitude.isFinite || !geodetic.longitude.isFinite ||
                !geodetic.height.isFinite then
              .transformFail
            else
              let latDeg := jdiv (jmul geodetic.latitude (jnum 180)) jpi
              let lonDeg0 := jdiv (jmul geodetic.longitude (jnum 180)) jpi
              let lonDeg := jsub (jmod (jadd (jmod (jadd lonDeg0 (jnum 180)) (jnum 360))
                (jnum 360)) (jnum 360)) (jnum 180)
              .ok { name := satellite.name
                    noradId := satellite.noradId
                    category := satellite.category
                    position := { lat := latDeg, lon := lonDeg, alt := geodetic.height }
                    velocity := { x := velocityEcf.x, y := velocityEcf.y, z := velocityEcf.z }
                    visible := true }

/-- One full iteration of the propagation loop for one catalog entry:
parse (possibly from the cache, possibly filling it), then the rest of the
body; returns the entry's outcome and the cache as left behind. -/
def processEntry (L : SatLib) (M : JSMath) (date : ℚ) (satellite : SatelliteData)
    (cache : Cache) : Outcome × Cache :=
  (processParsed L M date satellite (parseTLE L satellite cache).1,
    (parseTLE L satellite cache).2)

/-- What `propagateSatellites` accumulates over the catalog: the output
batch (in catalog order), the three diagnostic counters (worker lines
143-145), and the cache state it leaves behind. -/
structure PropagateResult where
  positions : List SatellitePosition
  parsedCount : ℕ
  propagatedCount : ℕ
  geodeticCount : ℕ
  cache : Cache
  deriving DecidableEq, Repr

/-- The `for (const satellite of satellites)` loop of `propagateSatellites`
(worker lines 149-262). Counter increments follow the source exactly:
`parsedCount++` once `parseTLE` returned a record (line 153),
`propagatedCount++` once both propagation checks passed (line 197),
`geodeticCount++` once the geodetic finiteness check passed (line 229). -/
def runEntries (L : SatLib) (M : JSMath) (date : ℚ) :
    List SatelliteData → Cache → PropagateResult
  | [], cache => ⟨[], 0, 0, 0, cache⟩
  | satellite :: rest, cache =>
    let step := processEntry L M date satellite cache
    let r := runEntries L M date rest step.2
    match step.1 with
    | .parseFail => r
    | .sanityFail => { r with parsedCount := r.parsedCount + 1 }
    | .propFail => { r with parsedCount := r.parsedCount + 1 }
    | .transformFail =>
        { r with parsedCount := r.parsedCount + 1,
                 propagatedCount := r.propagatedCount + 1 }
    | .ok sample =>
        { r with positions := sample :: r.positions,
                 parsedCount := r.parsedCount + 1,
                 propagatedCount := r.propagatedCount + 1,
                 geodeticCount := r.geodeticCount + 1 }

/-- `propagateSatellites` (worker lines 135-271). `new Date(timestamp)`
wraps the epoch-millisecond value without changing it, so the date handed
to `propagate`/`gstime` is the timestamp itself. The observer parameters
are accepted (with the source's defaults applied by the caller) but, as in
the source, never used by the loop body. -/
def propagateSatellites (L : SatLib) (M : JSMath) (satellites : List SatelliteData)
    (timestamp : ℚ) (observerLat observerLon observerAlt : ℚ)
    (cache : Cache) : PropagateResult :=
  let date := timestamp
  runEntries L M date satellites cache

/-- The per-entry outcome trace of one batch, used to state conservation
properties; it threads the cache exactly as `runEntries` does. -/
def batchOutcomes (L : SatLib) (M : JSMath) (date : ℚ) :
    List SatelliteData → Cache → List Outcome
  | [], _ => []
  | satellite :: rest, cache =>
    let step := processEntry L M date satellite cache
    step.1 :: batchOutcomes L M date rest step.2

/-- Entries dropped by `parseTLE` returning null. -/
def Outcome.isParseFail : Outcome → Bool
  | .parseFail => true
  | _ => false

/-- Entries dropped between a successful parse and a successful
propagation: the satrec sanity check and the two propagation skips. -/
def Outcome.isPropagationFail : Outcome → Bool
  | .sanityFail => true
  | .propFail => true
  | _ => false

/-- Entries dropped by the geodetic finiteness check. -/
def Outcome.isTransformFail : Outcome → Bool
  | .transformFail => true
  | _ => false

/-- Entries that produced an output sample. -/
def Outcome.isOk : Outcome → Bool
  | .ok _ => true
  | _ => false

/-- The incoming message's `data` payload; optional fields mirror the
worker's `WorkerMessage` interface and its runtime checks. -/
structure PropData where
  satellites : Option (List SatelliteData)
  timestamp : Option ℚ
  observerLat : Option ℚ
  observerLon : Option ℚ
  observerAlt : Option ℚ
  deriving DecidableEq, Repr

/-- An incoming worker message: `INIT`, `PROPAGATE` (whose `data` may be
absent), or an unrecognized type string. -/
inductive WorkerMessage where
  | INIT
  | PROPAGATE (data : Option PropData)
  | UNKNOWN (typeName : String)
  deriving DecidableEq, Repr

/-- An outgoing worker message (`WorkerResponse`). -/
inductive WorkerResponse where
  | POSITIONS (positions : List SatellitePosition) (timestamp : ℚ) (count : ℕ)
  | ERROR (error : String)
  | READY
  deriving DecidableEq, Repr

/-- JavaScript `v || 0` applied to an optional finite number: absent or
zero (both falsy) give `0`. -/
def orZero : Option ℚ → ℚ
  | none => 0
  | some v => if v = 0 then 0 else v

/-- JavaScript `data.timestamp || Date.now()`: an absent or zero timestamp
(both falsy) is replaced by the current wall-clock time `now`. -/
def orNow (now : ℚ) : Option ℚ → ℚ
  | none => now
  | some v => if v = 0 then now else v

/-- The `self.onmessage` handler (worker lines 274-327). `now` is the value
`Date.now()` would return during this invocation. The thrown
`Error("No satellite data provided")` and the unknown-type throw are caught
by the surrounding try/catch and surfaced as an `ERROR` response. -/
def onmessage (L : SatLib) (M : JSMath) (cache : Cache) (now : ℚ)
    (msg : WorkerMessage) : WorkerResponse × Cache :=
  match msg with
  | .INIT => (.READY, cache)
  | .PROPAGATE data =>
    match data with
    | none => (.ERROR "No satellite data provided", cache)
    | some d =>
      match d.satellites with
      | none => (.ERROR "No satellite data provided", cache)
      | some satellites =>
        let timestamp := orNow now d.timestamp
        let observerLat := orZero d.observerLat
        let observerLon := orZero d.observerLon
        let observerAlt := orZero d.observerAlt
        let r := propagateSatellites L M satellites timestamp
          observerLat observerLon observerAlt cache
        (.POSITIONS r.positions timestamp r.positions.length, r.cache)
  | .UNKNOWN t => (.ERROR ("Unknown message type: " ++ t), cache)

/-- The longitude normalization applied at worker line 234, on the
underlying rational. -/
def normalizeLon (x : ℚ) : ℚ := jsMod (jsMod (x + 180) 360 + 360) 360 - 180

/-- The record an entry effectively obtains from `parseTLE` against a given
cache state: the cached record on a key hit, a fresh parse otherwise. -/
def effectiveSatrec (L : SatLib) (cache : Cache) (satellite : SatelliteData) :
    Option Satrec :=
  match cacheFind cache (mkCacheKey satellite) with
  | some satrec => some satrec
  | none => L.twoline2satrec satellite.tle.line1 satellite.tle.line2

/-- No two entries of the catalog alias one composite cache key while
carrying different TLE text (delimiter collisions are excluded). -/
def keysInjective (sats : List SatelliteData) : Prop :=
  ∀ s1 ∈ sats, ∀ s2 ∈ sats, mkCacheKey s1 = mkCacheKey s2 → s1.tle = s2.tle

/-- The ECF-rotated geodetic result the loop computes for a propagated
position at the given instant. -/
def geodeticOf (L : SatLib) (M : JSMath) (date : ℚ) (pos : JVec3) : GeodeticResult :=
  ecefToGeodetic M (L.eciToEcf pos (L.gstime date)).x (L.eciToEcf pos (L.gstime date)).y
    (L.eciToEcf pos (L.gstime date)).z

/-- The sample pushed for a surviving entry (worker lines 231-258):
degree conversion, longitude normalization, ECF velocity, `visible = true`. -/
def toSample (satellite : SatelliteData) (geodetic : GeodeticResult)
    (velocityEcf : JVec3) : SatellitePosition :=
  { name := satellite.name
    noradId := satellite.noradId
    category := satellite.category
    position := { lat := jdiv (jmul geodetic.latitude (jnum 180)) jpi
                  lon := jsub (jmod (jadd (jmod (jadd (jdiv (jmul geodetic.longitude (jnum 180)) jpi)
                    (jnum 180)) (jnum 360)) (jnum 360)) (jnum 360)) (jnum 180)
                  alt := geodetic.height }
    velocity := { x := velocityEcf.x, y := velocityEcf.y, z := velocityEcf.z }
    visible := true }

/-- A concrete interpretation of `Math` used to evaluate the model on
closed inputs: it satisfies `sin 0 = 0`, `sqrt 0 = 0`, `sqrt 1 = 1`,
`atan2 0 1 = 0`. -/
def mathC : JSMath := { sin := fun _ => 0, cos := fun _ => 1, atan2 := fun _ _ => 0, sqrt := id }

/-- A concrete catalog entry. -/
def satC : SatelliteData :=
  { name := "ISS"
    noradId := "25544"
    category := "station"
    tle := { line1 := "L1", line2 := "L2" } }

/-- A concrete parsed record with finite sanity fields. -/
def recC : Satrec := { no := .fin 1, ecco := .fin 0, inclo := .fin 0, tag := 0 }

/-- A concrete library whose propagation returns a finite position but a
velocity with a non-finite x component. -/
def libC : SatLib :=
  { twoline2satrec := fun _ _ => some recC
    propagate := fun _ _ =>
      { position := some { x := .fin 1, y := .fin 0, z := .fin 0 }
        velocity := some { x := .nonfin, y := .fin 0, z := .fin 0 } }
    gstime := fun _ => 0
    eciToEcf := fun v _ => v }

/-- The sample `libC`/`mathC` produce for `satC`. -/
def sampleC : SatellitePosition :=
  { name := "ISS"
    noradId := "25544"
    category := "station"
    position := { lat := .fin 0, lon := .fin 0, alt := .fin (-6377137 / 1000) }
    velocity := { x := .nonfin, y := .fin 0, z := .fin 0 }
    visible := true }

/-- A concrete library whose parser distinguishes line text, so that
different line text parses to distinct records. -/
def libTag : SatLib :=
  { twoline2satrec := fun l1 _ =>
      if l1 = "a" then some { no := .fin 1, ecco := .fin 0, inclo := .fin 0, tag := 1 }
      else if l1 = "x" then some { no := .fin 1, ecco := .fin 0, inclo := .fin 0, tag := 2 }
      else some { no := .fin 1, ecco := .fin 0, inclo := .fin 0, tag := 3 }
    propagate := fun _ _ => { position := none, velocity := none }
    gstime := fun _ => 0
    eciToEcf := fun v _ => v }

/-- Same identity as `satColl2`, different TLE text, identical composite
cache key (delimiter collision). -/
def satColl1 : SatelliteData :=
  { name := "A"
    noradId := "n"
    category := "cat"
    tle := { line1 := "a-b", line2 := "c" } }

/-- See `satColl1`. -/
def satColl2 : SatelliteData :=
  { name := "B"
    noradId := "n"
    category := "cat"
    tle := { line1 := "a", line2 := "b-c" } }

/-- A non-colliding pair with the same identity: first entry. -/
def satNC1 : SatelliteData :=
  { name := "C"
    noradId := "m"
    category := "cat"
    tle := { line1 := "x", line2 := "y" } }

/-- A non-colliding pair with the same identity: second entry. -/
def satNC2 : SatelliteData :=
  { name := "D"
    noradId := "m"
    category := "cat"
    tle := { line1 := "xx", line2 := "y" } }

/-- A concrete library whose parser throws exactly on line1 `"a"` and whose
propagation always succeeds with finite output. -/
def libC9 : SatLib :=
  { twoline2satrec := fun l1 _ =>
      if l1 = "a" then none
      else some { no := .fin 1, ecco := .fin 0, inclo := .fin 0, tag := 3 }
    propagate := fun _ _ =>
      { position := some { x := .fin 1, y := .fin 0, z := .fin 0 }
        velocity := some { x := .fin 0, y := .fin 0, z := .fin 0 } }
    gstime := fun _ => 0
    eciToEcf := fun v _ => v }

/-- Parse-failing entry whose key collides with `satY`. -/
def satX : SatelliteData :=
  { name := "X"
    noradId := "n"
    category := "cat"
    tle := { line1 := "a", line2 := "b-c" } }

/-- Successfully parsed entry whose key collides with `satX`. -/
def satY : SatelliteData :=
  { name := "Y"
    noradId := "n"
    category := "cat"
    tle := { line1 := "a-b", line2 := "c" } }

/-- The record `libC9` parses for any line1 other than `"a"`. -/
def recY : Satrec := { no := .fin 1, ecco := .fin 0, inclo := .fin 0, tag := 3 }

/-- The sample the second pass emits for `satX` after the cache collision. -/
def sampleX9 : SatellitePosition :=
  { name := "X"
    noradId := "n"
    category := "cat"
    position := { lat := .fin 0, lon := .fin 0, alt := .fin (-6377137 / 1000) }
    velocity := { x := .fin 0, y := .fin 0, z := .fin 0 }
    visible := true }

/-- The sample both passes emit for `satY`. -/
def sampleY9 : SatellitePosition :=
  { name := "Y"
    noradId := "n"
    category := "cat"
    position := { lat := .fin 0, lon := .fin 0, alt := .fin (-6377137 / 1000) }
    velocity := { x := .fin 0, y := .fin 0, z := .fin 0 }
    visible := true }

/-- The record `libTag` parses for line1 `"x"`. -/
def recNC1 : Satrec := { no := .fin 1, ecco := .fin 0, inclo := .fin 0, tag := 2 }

/-- The record `libTag` parses for line1 `"xx"`. -/
def recNC2 : Satrec := { no := .fin 1, ecco := .fin 0, inclo := .fin 0, tag := 3 }

/-- A concrete library whose propagation returns a position with a
non-finite component. -/
def libBad : SatLib :=
  { twoline2satrec := fun _ _ => some recC
    propagate := fun _ _ =>
      { position := some { x := .nonfin, y := .fin 0, z := .fin 0 }
        velocity := some { x := .fin 0, y := .fin 0, z := .fin 0 } }
    gstime := fun _ => 0
    eciToEcf := fun v _ => v }

/-- The propagation-result checks of worker lines 176-196, as one
predicate: the position is present with finite components and the velocity
is present. -/
def propagationValid (pv : PosVel) : Bool :=
  match pv.position with
  | none => false
  | some pos =>
    (pos.x.isFinite && pos.y.isFinite && pos.z.isFinite) &&
      (match pv.velocity with
       | none => false
       | some _ => true)

lemma qtrunc_neg (q : ℚ) : qtrunc (-q) = -qtrunc q := by
  unfold qtrunc
  rcases lt_trichotomy q 0 with h | h | h
  · have h1 : ¬(-q < 0) := by linarith
    simp [h, h1]
  · simp [h]
  · have h1 : -q < 0 := by linarith
    have h2 : ¬(q < 0) := by linarith
    simp [h1, h2]

lemma jsMod_neg_left (a b : ℚ) : jsMod (-a) b = -jsMod a b := by
  unfold jsMod
  rw [neg_div, qtrunc_neg]
  push_cast
  ring

lemma jsMod_nonneg_of_nonneg (a b : ℚ) (ha : 0 ≤ a) (hb : 0 < b) : 0 ≤ jsMod a b := by
  unfold jsMod qtrunc
  have hdiv : 0 ≤ a / b := div_nonneg ha hb.le
  have hnl : ¬(a / b < 0) := not_lt.mpr hdiv
  rw [if_neg hnl]
  have hfl : ((⌊a / b⌋ : ℤ) : ℚ) ≤ a / b := Int.floor_le _
  have hmul : b * ((⌊a / b⌋ : ℤ) : ℚ) ≤ b * (a / b) :=
    mul_le_mul_of_nonneg_left hfl hb.le
  have hcancel : b * (a / b) = a := by field_simp
  linarith

lemma jsMod_lt_of_nonneg (a b : ℚ) (ha : 0 ≤ a) (hb : 0 < b) : jsMod a b < b := by
  unfold jsMod qtrunc
  have hdiv : 0 ≤ a / b := div_nonneg ha hb.le
  have hnl : ¬(a / b < 0) := not_lt.mpr hdiv
  rw [if_neg hnl]
  have hfl : a / b < (⌊a / b⌋ : ℤ) + 1 := Int.lt_floor_add_one _
  have hmul : b * (a / b) < b * (((⌊a / b⌋ : ℤ) : ℚ) + 1) := by
    have := mul_lt_mul_of_pos_left hfl hb
    push_cast at this ⊢
    linarith
  have hcancel : b * (a / b) = a := by field_simp
  nlinarith

lemma neg_lt_jsMod (a b : ℚ) (hb : 0 < b) : -b < jsMod a b := by
  rcases le_or_lt 0 a with ha | ha
  · have := jsMod_nonneg_of_nonneg a b ha hb
    linarith
  · have hna : 0 ≤ -a := by linarith
    have h1 : jsMod (-a) b < b := jsMod_lt_of_nonneg (-a) b hna hb
    have h2 : jsMod (-a) b = -jsMod a b := jsMod_neg_left a b
    linarith

/-- The normalized longitude always lies in the half-open interval
`[-180, 180)`. -/
lemma normalizeLon_mem (x : ℚ) : -180 ≤ normalizeLon x ∧ normalizeLon x < 180 := by
  unfold normalizeLon
  have h360 : (0 : ℚ) < 360 := by norm_num
  have h1 : -360 < jsMod (x + 180) 360 := neg_lt_jsMod (x + 180) 360 h360
  have hpos : 0 ≤ jsMod (x + 180) 360 + 360 := by linarith
  have h2 : 0 ≤ jsMod (jsMod (x + 180) 360 + 360) 360 :=
    jsMod_nonneg_of_nonneg _ 360 hpos h360
  have h3 : jsMod (jsMod (x + 180) 360 + 360) 360 < 360 :=
    jsMod_lt_of_nonneg _ 360 hpos h360
  constructor <;> linarith

@[simp] lemma jadd_fin (a b : ℚ) : jadd (.fin a) (.fin b) = .fin (a + b) := rfl

@[simp] lemma jsub_fin (a b : ℚ) : jsub (.fin a) (.fin b) = .fin (a - b) := rfl

@[simp] lemma jmul_fin (a b : ℚ) : jmul (.fin a) (.fin b) = .fin (a * b) := rfl

lemma jdiv_fin (a b : ℚ) (hb : b ≠ 0) : jdiv (.fin a) (.fin b) = .fin (a / b) := by
  simp [jdiv, hb]

lemma jmod_fin (a b : ℚ) (hb : b ≠ 0) : jmod (.fin a) (.fin b) = .fin (jsMod a b) := by
  simp [jmod, hb]

lemma mathPI_ne_zero : mathPI ≠ 0 := by norm_num [mathPI]

lemma JSNum.isFinite_iff (n : JSNum) : n.isFinite = true ↔ ∃ q : ℚ, n = .fin q := by
  cases n <;> simp [JSNum.isFinite]

lemma parseTLE_hit (L : SatLib) (satellite : SatelliteData) (cache : Cache) (satrec : Satrec)
    (h : cacheFind cache (mkCacheKey satellite) = some satrec) :
    parseTLE L satellite cache = (some satrec, cache) := by
  simp [parseTLE, h]

lemma parseTLE_miss_parsed (L : SatLib) (satellite : SatelliteData) (cache : Cache)
    (satrec : Satrec) (h1 : cacheFind cache (mkCacheKey satellite) = none)
    (h2 : L.twoline2satrec satellite.tle.line1 satellite.tle.line2 = some satrec) :
    parseTLE L satellite cache = (some satrec, (mkCacheKey satellite, satrec) :: cache) := by
  simp [parseTLE, h1, h2]

lemma parseTLE_miss_failed (L : SatLib) (satellite : SatelliteData) (cache : Cache)
    (h1 : cacheFind cache (mkCacheKey satellite) = none)
    (h2 : L.twoline2satrec satellite.tle.line1 satellite.tle.line2 = none) :
    parseTLE L satellite cache = (none, cache) := by
  simp [parseTLE, h1, h2]

lemma parseTLE_fst (L : SatLib) (satellite : SatelliteData) (cache : Cache) :
    (parseTLE L satellite cache).1 = effectiveSatrec L cache satellite := by
  unfold parseTLE effectiveSatrec
  rcases h : cacheFind cache (mkCacheKey satellite) with _ | s
  · rcases h2 : L.twoline2satrec satellite.tle.line1 satellite.tle.line2 with _ | s' <;>
      simp [h, h2]
  · simp [h]

lemma processEntry_fst (L : SatLib) (M : JSMath) (date : ℚ) (satellite : SatelliteData)
    (cache : Cache) :
    (processEntry L M date satellite cache).1 =
      processParsed L M date satellite (effectiveSatrec L cache satellite) := by
  unfold processEntry
  rw [parseTLE_fst]

lemma processEntry_snd (L : SatLib) (M : JSMath) (date : ℚ) (satellite : SatelliteData)
    (cache : Cache) :
    (processEntry L M date satellite cache).2 = (parseTLE L satellite cache).2 := rfl

/-- Processing one entry never changes what any entry whose key collision
with it would imply identical TLE text effectively sees in the cache: a hit
stores nothing, and a miss stores exactly the parse of the same text. -/
lemma effectiveSatrec_parseTLE (L : SatLib) (satellite sat' : SatelliteData) (cache : Cache)
    (hkey : mkCacheKey sat' = mkCacheKey satellite → sat'.tle = satellite.tle) :
    effectiveSatrec L (parseTLE L satellite cache).2 sat' = effectiveSatrec L cache sat' := by
  rcases h : cacheFind cache (mkCacheKey satellite) with _ | s
  · rcases h2 : L.twoline2satrec satellite.tle.line1 satellite.tle.line2 with _ | s'
    · rw [parseTLE_miss_failed L satellite cache h h2]
    · rw [parseTLE_miss_parsed L satellite cache s' h h2]
      unfold effectiveSatrec
      by_cases hk : mkCacheKey satellite = mkCacheKey sat'
      · have htle : sat'.tle = satellite.tle := hkey hk.symm
        have hfind : cacheFind cache (mkCacheKey sat') = none := by rw [← hk]; exact h
        simp [cacheFind, hk, hfind, htle, h2]
      · simp [cacheFind, hk]
  · rw [parseTLE_hit L satellite cache s h]

/-- Every branch of the loop body leaves `runEntries`'s final cache equal to
the cache after processing the remaining entries. -/
lemma runEntries_cache_cons (L : SatLib) (M : JSMath) (date : ℚ)
    (satellite : SatelliteData) (rest : List SatelliteData) (cache : Cache) :
    (runEntries L M date (satellite :: rest) cache).cache =
      (runEntries L M date rest (processEntry L M date satellite cache).2).cache := by
  simp only [runEntries]
  cases h1 : (processEntry L M date satellite cache).1 <;> simp [h1]

/-- Running a whole batch does not change what an entry effectively sees,
provided any same-key entry of the batch carries the same TLE text. -/
lemma runEntries_effective (L : SatLib) (M : JSMath) (date : ℚ)
    (sats : List SatelliteData) : ∀ (cache : Cache) (sat' : SatelliteData),
    (∀ s ∈ sats, mkCacheKey sat' = mkCacheKey s → sat'.tle = s.tle) →
    effectiveSatrec L (runEntries L M date sats cache).cache sat' =
      effectiveSatrec L cache sat' := by
  induction sats with
  | nil => intro cache sat' _; rfl
  | cons sat rest ih =>
    intro cache sat' h
    rw [runEntries_cache_cons]
    rw [ih _ sat' (fun s hs hk => h s (List.mem_cons_of_mem _ hs) hk)]
    rw [processEntry_snd]
    exact effectiveSatrec_parseTLE L sat sat' cache (h sat (List.mem_cons_self _ _))

/-- The diagnostic counters are cumulative success counts: each equation
relates a counter of `runEntries` to the failure tallies of the outcome
trace. -/
lemma runEntries_counts (L : SatLib) (M : JSMath) (date : ℚ)
    (sats : List SatelliteData) : ∀ cache : Cache,
    (runEntries L M date sats cache).parsedCount
        + (batchOutcomes L M date sats cache).countP Outcome.isParseFail = sats.length ∧
    (runEntries L M date sats cache).propagatedCount
        + (batchOutcomes L M date sats cache).countP Outcome.isParseFail
        + (batchOutcomes L M date sats cache).countP Outcome.isPropagationFail = sats.length ∧
    (runEntries L M date sats cache).positions.length
        + (batchOutcomes L M date sats cache).countP Outcome.isParseFail
        + (batchOutcomes L M date sats cache).countP Outcome.isPropagationFail
        + (batchOutcomes L M date sats cache).countP Outcome.isTransformFail = sats.length ∧
    (runEntries L M date sats cache).geodeticCount =
      (runEntries L M date sats cache).positions.length := by
  induction sats with
  | nil => intro cache; simp [runEntries, batchOutcomes]
  | cons sat rest ih =>
    intro cache
    obtain ⟨ih1, ih2, ih3, ih4⟩ := ih (processEntry L M date sat cache).2
    cases h1 : (processEntry L M date sat cache).1 <;>
      simp [runEntries, batchOutcomes, h1, List.countP_cons, Outcome.isParseFail,
        Outcome.isPropagationFail, Outcome.isTransformFail] <;>
      omega

/-- Two cache states under which every entry of the batch effectively sees
the same record produce identical batches and counters, provided same-key
entries of the batch carry the same TLE text. -/
lemma runEntries_congr (L : SatLib) (M : JSMath) (date : ℚ)
    (sats : List SatelliteData) : ∀ (c d : Cache),
    (∀ s1 ∈ sats, ∀ s2 ∈ sats, mkCacheKey s1 = mkCacheKey s2 → s1.tle = s2.tle) →
    (∀ s ∈ sats, effectiveSatrec L d s = effectiveSatrec L c s) →
    (runEntries L M date sats d).positions = (runEntries L M date sats c).positions ∧
    (runEntries L M date sats d).parsedCount = (runEntries L M date sats c).parsedCount ∧
    (runEntries L M date sats d).propagatedCount =
      (runEntries L M date sats c).propagatedCount ∧
    (runEntries L M date sats d).geodeticCount =
      (runEntries L M date sats c).geodeticCount := by
  induction sats with
  | nil => intro c d _ _; exact ⟨rfl, rfl, rfl, rfl⟩
  | cons sat rest ih =>
    intro c d hinj heff
    have hout : (processEntry L M date sat d).1 = (processEntry L M date sat c).1 := by
      rw [processEntry_fst, processEntry_fst, heff sat (List.mem_cons_self _ _)]
    have heff' : ∀ s ∈ rest,
        effectiveSatrec L (processEntry L M date sat d).2 s =
          effectiveSatrec L (processEntry L M date sat c).2 s := by
      intro s hs
      rw [processEntry_snd, processEntry_snd]
      rw [effectiveSatrec_parseTLE L sat s d
          (fun hk => hinj s (List.mem_cons_of_mem _ hs) sat (List.mem_cons_self _ _) hk)]
      rw [effectiveSatrec_parseTLE L sat s c
          (fun hk => hinj s (List.mem_cons_of_mem _ hs) sat (List.mem_cons_self _ _) hk)]
      exact heff s (List.mem_cons_of_mem _ hs)
    have hinj' : ∀ s1 ∈ rest, ∀ s2 ∈ rest, mkCacheKey s1 = mkCacheKey s2 → s1.tle = s2.tle :=
      fun s1 h1 s2 h2 =>
        hinj s1 (List.mem_cons_of_mem _ h1) s2 (List.mem_cons_of_mem _ h2)
    obtain ⟨e1, e2, e3, e4⟩ := ih _ _ hinj' heff'
    cases h1 : (processEntry L M date sat c).1 <;>
      simp [runEntries, hout, h1, e1, e2, e3, e4]

/-- Inversion: an entry reaches the push only with a parsed record, a
present position with finite components, a present velocity, and a finite
geodetic triple; its sample is exactly `toSample`. -/
lemma processParsed_ok_inv (L : SatLib) (M : JSMath) (date : ℚ)
    (satellite : SatelliteData) (ro : Option Satrec) (sample : SatellitePosition)
    (h : processParsed L M date satellite ro = .ok sample) :
    ∃ satrec pos vel,
      ro = some satrec ∧
      (L.propagate satrec date).position = some pos ∧
      pos.x.isFinite = true ∧ pos.y.isFinite = true ∧ pos.z.isFinite = true ∧
      (L.propagate satrec date).velocity = some vel ∧
      (geodeticOf L M date pos).latitude.isFinite = true ∧
      (geodeticOf L M date pos).longitude.isFinite = true ∧
      (geodeticOf L M date pos).height.isFinite = true ∧
      sample = toSample satellite (geodeticOf L M date pos)
        (L.eciToEcf vel (L.gstime date)) := by
  rcases ro with _ | satrec
  · exact absurd h (by simp [processParsed])
  · simp only [processParsed] at h
    split at h
    · exact absurd h (by simp)
    · split at h
      · exact absurd h (by simp)
      · rename_i pos hp
        split at h
        · exact absurd h (by simp)
        · rename_i hposfin
          split at h
          · exact absurd h (by simp)
          · rename_i vel hv
            split at h
            · exact absurd h (by simp)
            · rename_i hgeofin
              simp only [Bool.or_eq_true, Bool.not_eq_true', Bool.not_eq_false] at hposfin hgeofin
              push_neg at hposfin hgeofin
              obtain ⟨⟨hpx, hpy⟩, hpz⟩ := hposfin
              obtain ⟨⟨hgl, hgo⟩, hgh⟩ := hgeofin
              injection h with hs
              refine ⟨satrec, pos, vel, rfl, hp, ?_, ?_, ?_, hv, ?_, ?_, ?_, ?_⟩
              · simpa using hpx
              · simpa using hpy
              · simpa using hpz
              · simpa [geodeticOf] using hgl
              · simpa [geodeticOf] using hgo
              · simpa [geodeticOf] using hgh
              · rw [← hs]; rfl

/-- Every sample of a batch was produced by some catalog entry reaching the
push. -/
lemma runEntries_positions_mem (L : SatLib) (M : JSMath) (date : ℚ)
    (sats : List SatelliteData) : ∀ (cache : Cache) (s : SatellitePosition),
    s ∈ (runEntries L M date sats cache).positions →
    ∃ satellite ro, satellite ∈ sats ∧ processParsed L M date satellite ro = .ok s := by
  induction sats with
  | nil => intro cache s hs; simp [runEntries] at hs
  | cons sat rest ih =>
    intro cache s hs
    cases h1 : (processEntry L M date sat cache).1 <;>
      simp only [runEntries] at hs <;> rw [h1] at hs <;> simp only [] at hs
    case parseFail =>
      obtain ⟨satellite, ro, hmem, hok⟩ := ih _ s hs
      exact ⟨satellite, ro, List.mem_cons_of_mem _ hmem, hok⟩
    case sanityFail =>
      obtain ⟨satellite, ro, hmem, hok⟩ := ih _ s hs
      exact ⟨satellite, ro, List.mem_cons_of_mem _ hmem, hok⟩
    case propFail =>
      obtain ⟨satellite, ro, hmem, hok⟩ := ih _ s hs
      exact ⟨satellite, ro, List.mem_cons_of_mem _ hmem, hok⟩
    case transformFail =>
      obtain ⟨satellite, ro, hmem, hok⟩ := ih _ s hs
      exact ⟨satellite, ro, List.mem_cons_of_mem _ hmem, hok⟩
    case ok sample =>
      rcases List.mem_cons.mp hs with heq | hrest
      · refine ⟨sat, effectiveSatrec L cache sat, List.mem_cons_self _ _, ?_⟩
        rw [← processEntry_fst, h1, heq]
      · obtain ⟨satellite, ro, hmem, hok⟩ := ih _ s hrest
        exact ⟨satellite, ro, List.mem_cons_of_mem _ hmem, hok⟩

lemma latLoop_eq_iterate (M : JSMath) (a e2 z p : JSNum) :
    ∀ (n : ℕ) (lat : JSNum), latLoop M a e2 z p n lat = (latStep M a e2 z p)^[n] lat := by
  intro n
  induction n with
  | zero => intro lat; rfl
  | succ n ih =>
    intro lat
    rw [Function.iterate_succ_apply]
    exact ih (latStep M a e2 z p lat)

lemma latLoop_five (M : JSMath) (a e2 z p lat : JSNum) :
    latLoop M a e2 z p 5 lat =
      latStep M a e2 z p (latStep M a e2 z p (latStep M a e2 z p
        (latStep M a e2 z p (latStep M a e2 z p lat)))) := rfl

lemma ecefC_eval : ecefToGeodetic mathC (.fin 1) (.fin 0) (.fin 0) =
    { latitude := .fin 0, longitude := .fin 0, height := .fin (-6377137 / 1000) } := by
  simp only [ecefToGeodetic, latLoop_five]
  norm_num [latStep, jsin, jcos, jatan2, jsqrt, jadd, jsub, jmul, jdiv, jnum, mathC]

lemma processC : processParsed libC mathC 0 satC (some recC) = .ok sampleC := by
  simp only [processParsed]
  norm_num [libC, recC, satC, sampleC, JSNum.isFinite, ecefC_eval, jadd, jsub, jmul,
    jdiv, jmod, jnum, jpi, mathPI, jsMod, qtrunc]

lemma pC0 : processEntry libC mathC 0 satC [] = (.ok sampleC, [(mkCacheKey satC, recC)]) := by
  have hp : parseTLE libC satC [] = (some recC, [(mkCacheKey satC, recC)]) := by
    simp [parseTLE, cacheFind, libC]
  unfold processEntry
  rw [hp]
  simp [processC]

lemma runC : propagateSatellites libC mathC [satC] 0 0 0 0 [] =
    { positions := [sampleC], parsedCount := 1, propagatedCount := 1, geodeticCount := 1,
      cache := [(mkCacheKey satC, recC)] } := by
  simp [propagateSatellites, runEntries, pC0]

lemma outC : batchOutcomes libC mathC 0 [satC] [] = [.ok sampleC] := by
  simp [batchOutcomes, pC0]

lemma keyXY : mkCacheKey satX = mkCacheKey satY := by
  simp [mkCacheKey, satX, satY]

lemma processY9 : processParsed libC9 mathC 0 satY (some recY) = .ok sampleY9 := by
  simp only [processParsed]
  norm_num [libC9, recY, satY, sampleY9, JSNum.isFinite, ecefC_eval, jadd, jsub, jmul,
    jdiv, jmod, jnum, jpi, mathPI, jsMod, qtrunc]

lemma processX9 : processParsed libC9 mathC 0 satX (some recY) = .ok sampleX9 := by
  simp only [processParsed]
  norm_num [libC9, recY, satX, sampleX9, JSNum.isFinite, ecefC_eval, jadd, jsub, jmul,
    jdiv, jmod, jnum, jpi, mathPI, jsMod, qtrunc]

lemma pX0 : processEntry libC9 mathC 0 satX [] = (.parseFail, []) := by
  have hp : parseTLE libC9 satX [] = (none, []) := by
    simp [parseTLE, cacheFind, libC9, satX]
  unfold processEntry
  rw [hp]
  simp [processParsed]

lemma pY0 : processEntry libC9 mathC 0 satY [] = (.ok sampleY9, [(mkCacheKey satY, recY)]) := by
  have hp : parseTLE libC9 satY [] = (some recY, [(mkCacheKey satY, recY)]) := by
    simp [parseTLE, cacheFind, libC9, satY, recY]
  unfold processEntry
  rw [hp]
  simp [processY9]

lemma pXhit : processEntry libC9 mathC 0 satX [(mkCacheKey satY, recY)] =
    (.ok sampleX9, [(mkCacheKey satY, recY)]) := by
  have hfind : cacheFind [(mkCacheKey satY, recY)] (mkCacheKey satX) = some recY := by
    simp [cacheFind, keyXY]
  have hp : parseTLE libC9 satX [(mkCacheKey satY, recY)] =
      (some recY, [(mkCacheKey satY, recY)]) := parseTLE_hit _ _ _ _ hfind
  unfold processEntry
  rw [hp]
  simp [processX9]

lemma pYhit : processEntry libC9 mathC 0 satY [(mkCacheKey satY, recY)] =
    (.ok sampleY9, [(mkCacheKey satY, recY)]) := by
  have hfind : cacheFind [(mkCacheKey satY, recY)] (mkCacheKey satY) = some recY := by
    simp [cacheFind]
  have hp : parseTLE libC9 satY [(mkCacheKey satY, recY)] =
      (some recY, [(mkCacheKey satY, recY)]) := parseTLE_hit _ _ _ _ hfind
  unfold processEntry
  rw [hp]
  simp [processY9]

lemma runC9a : propagateSatellites libC9 mathC [satX, satY] 0 0 0 0 [] =
    { positions := [sampleY9], parsedCount := 1, propagatedCount := 1, geodeticCount := 1,
      cache := [(mkCacheKey satY, recY)] } := by
  simp [propagateSatellites, runEntries, pX0, pY0]

lemma runC9b : propagateSatellites libC9 mathC [satX, satY] 0 0 0 0 [(mkCacheKey satY, recY)] =
    { positions := [sampleX9, sampleY9], parsedCount := 2, propagatedCount := 2,
      geodeticCount := 2, cache := [(mkCacheKey satY, recY)] } := by
  simp [propagateSatellites, runEntries, pXhit, pYhit]

/-- Claim C1, counterexample: on a one-entry catalog whose entry succeeds
end to end, the batch has 1 sample and 0 parse failures, yet the first
diagnostic counter is 1, not 0 — the counters are success counts, and do
not equal the failure counts p, g, t. -/
theorem c1_counterexample :
    (propagateSatellites libC mathC [satC] 0 0 0 0 []).positions.length = 1 ∧
    (batchOutcomes libC mathC 0 [satC] []).countP Outcome.isParseFail = 0 ∧
    (batchOutcomes libC mathC 0 [satC] []).countP Outcome.isPropagationFail = 0 ∧
    (batchOutcomes libC mathC 0 [satC] []).countP Outcome.isTransformFail = 0 ∧
    (propagateSatellites libC mathC [satC] 0 0 0 0 []).parsedCount = 1 ∧
    (propagateSatellites libC mathC [satC] 0 0 0 0 []).propagatedCount = 1 ∧
    (propagateSatellites libC mathC [satC] 0 0 0 0 []).geodeticCount = 1 ∧
    (propagateSatellites libC mathC [satC] 0 0 0 0 []).parsedCount ≠
      (batchOutcomes libC mathC 0 [satC] []).countP Outcome.isParseFail := by
  simp [runC, outC, List.countP_cons, Outcome.isParseFail, Outcome.isPropagationFail,
    Outcome.isTransformFail]

/-- Claim C1 (amended): for a catalog of N entries with p parse failures, g
satrec-sanity or propagation failures, and t transform failures, the batch
holds exactly N - p - g - t samples; the diagnostic counters are cumulative
success counts: parsedCount = N - p, propagatedCount = N - p - g, and
geodeticCount equals the batch size. -/
theorem c1_conservation (L : SatLib) (M : JSMath) (satellites : List SatelliteData)
    (timestamp observerLat observerLon observerAlt : ℚ) (cache : Cache) :
    (propagateSatellites L M satellites timestamp observerLat observerLon observerAlt
          cache).positions.length
        + (batchOutcomes L M timestamp satellites cache).countP Outcome.isParseFail
        + (batchOutcomes L M timestamp satellites cache).countP Outcome.isPropagationFail
        + (batchOutcomes L M timestamp satellites cache).countP Outcome.isTransformFail
      = satellites.length ∧
    (propagateSatellites L M satellites timestamp observerLat observerLon observerAlt
          cache).parsedCount
        + (batchOutcomes L M timestamp satellites cache).countP Outcome.isParseFail
      = satellites.length ∧
    (propagateSatellites L M satellites timestamp observerLat observerLon observerAlt
          cache).propagatedCount
        + (batchOutcomes L M timestamp satellites cache).countP Outcome.isParseFail
        + (batchOutcomes L M timestamp satellites cache).countP Outcome.isPropagationFail
      = satellites.length ∧
    (propagateSatellites L M satellites timestamp observerLat observerLon observerAlt
          cache).geodeticCount
      = (propagateSatellites L M satellites timestamp observerLat observerLon observerAlt
          cache).positions.length := by
  obtain ⟨h1, h2, h3, h4⟩ := runEntries_counts L M timestamp satellites cache
  exact ⟨h3, h1, h2, h4⟩

/-- Claim C2, counterexample: a PROPAGATE message with a missing catalog
(absent data, or absent satellites field) is answered with an ERROR
response, not a zero-sample Positions reply. -/
theorem c2_counterexample :
    (onmessage libC mathC [] 0 (.PROPAGATE none)).1 = .ERROR "No satellite data provided" ∧
    (onmessage libC mathC [] 0 (.PROPAGATE (some ⟨none, none, none, none, none⟩))).1 = .ERROR "No satellite data provided" :=
  ⟨rfl, rfl⟩

/-- Claim C2 (amended): an Error reply is emitted exactly on structural
failure, which includes a missing catalog; an empty catalog list is not an
error and yields a Positions reply with zero samples, and any present
catalog list yields a Positions reply. -/
theorem c2_structural (L : SatLib) (M : JSMath) (cache : Cache) (now : ℚ)
    (ts olat olon oalt : Option ℚ) (sats : List SatelliteData) :
    (onmessage L M cache now (.PROPAGATE none)).1 = .ERROR "No satellite data provided" ∧
    (onmessage L M cache now (.PROPAGATE (some ⟨none, ts, olat, olon, oalt⟩))).1 =
      .ERROR "No satellite data provided" ∧
    (onmessage L M cache now (.PROPAGATE (some ⟨some [], ts, olat, olon, oalt⟩))).1 =
      .POSITIONS [] (orNow now ts) 0 ∧
    (∃ positions count,
      (onmessage L M cache now (.PROPAGATE (some ⟨some sats, ts, olat, olon, oalt⟩))).1 =
        .POSITIONS positions (orNow now ts) count) := by
  refine ⟨rfl, rfl, rfl, ⟨_, _, rfl⟩⟩

/-- Claim C3, counterexample: two entries with the same identity and
different TLE text whose concatenated keys collide; the second call
returns the first call's cached record instead of a distinct one. With
non-colliding keys, the prior record is still found under its old key
after being superseded — it is not evicted. -/
theorem c3_counterexample :
    satColl1.noradId = satColl2.noradId ∧
    satColl1.tle ≠ satColl2.tle ∧
    mkCacheKey satColl1 = mkCacheKey satColl2 ∧
    (parseTLE libTag satColl2 (parseTLE libTag satColl1 []).2).1 =
      (parseTLE libTag satColl1 []).1 ∧
    (parseTLE libTag satColl2 (parseTLE libTag satColl1 []).2).1 ≠
      libTag.twoline2satrec satColl2.tle.line1 satColl2.tle.line2 ∧
    cacheFind (parseTLE libTag satNC2 (parseTLE libTag satNC1 []).2).2
      (mkCacheKey satNC1) = some recNC1 := by
  refine ⟨rfl, by decide, rfl, ?_, ?_, ?_⟩
  · simp [parseTLE, cacheFind, libTag, satColl1, satColl2, mkCacheKey]
  · simp [parseTLE, cacheFind, libTag, satColl1, satColl2, mkCacheKey]
  · simp [parseTLE, cacheFind, libTag, satNC1, satNC2, mkCacheKey, recNC1]

/-- Claim C3 (amended): an identical tuple hits the cache (same record, no
re-parse, no state change, whatever parser is supplied); same identity with
different line text re-parses and yields the fresh record, provided the
composite keys differ; the prior record remains cached under its old key
rather than being evicted. -/
theorem c3_cache (L : SatLib) (cache : Cache) (sat1 sat2 : SatelliteData) (s1 s2 : Satrec)
    (h1 : cacheFind cache (mkCacheKey sat1) = none)
    (h2 : cacheFind cache (mkCacheKey sat2) = none)
    (hne : mkCacheKey sat1 ≠ mkCacheKey sat2)
    (hp1 : L.twoline2satrec sat1.tle.line1 sat1.tle.line2 = some s1)
    (hp2 : L.twoline2satrec sat2.tle.line1 sat2.tle.line2 = some s2) :
    parseTLE L sat1 cache = (some s1, (mkCacheKey sat1, s1) :: cache) ∧
    parseTLE L sat2 ((mkCacheKey sat1, s1) :: cache) =
      (some s2, (mkCacheKey sat2, s2) :: (mkCacheKey sat1, s1) :: cache) ∧
    (∀ (L' : SatLib) (cache' : Cache), cacheFind cache' (mkCacheKey sat1) = some s1 →
      parseTLE L' sat1 cache' = (some s1, cache')) ∧
    cacheFind ((mkCacheKey sat2, s2) :: (mkCacheKey sat1, s1) :: cache)
      (mkCacheKey sat1) = some s1 := by
  have h2' : cacheFind ((mkCacheKey sat1, s1) :: cache) (mkCacheKey sat2) = none := by
    simp [cacheFind, hne, h2]
  refine ⟨parseTLE_miss_parsed L sat1 cache s1 h1 hp1,
    parseTLE_miss_parsed L sat2 _ s2 h2' hp2,
    fun L' cache' hfind => parseTLE_hit L' sat1 cache' s1 hfind, ?_⟩
  simp [cacheFind, hne.symm]

/-- Witness for the amended C3 at a concrete input; the cache-hit conjunct
is instantiated with a different parser (`libC`) to exhibit that no
re-parse happens. -/
theorem c3_cache_witness :
    parseTLE libTag satNC1 [] = (some recNC1, [(mkCacheKey satNC1, recNC1)]) ∧
    parseTLE libTag satNC2 [(mkCacheKey satNC1, recNC1)] =
      (some recNC2, [(mkCacheKey satNC2, recNC2), (mkCacheKey satNC1, recNC1)]) ∧
    parseTLE libC satNC1 [(mkCacheKey satNC2, recNC2), (mkCacheKey satNC1, recNC1)] =
      (some recNC1, [(mkCacheKey satNC2, recNC2), (mkCacheKey satNC1, recNC1)]) ∧
    cacheFind [(mkCacheKey satNC2, recNC2), (mkCacheKey satNC1, recNC1)]
      (mkCacheKey satNC1) = some recNC1 := by
  have h := c3_cache libTag [] satNC1 satNC2 recNC1 recNC2 rfl rfl (by decide)
    (by simp [libTag, satNC1, recNC1]) (by simp [libTag, satNC2, recNC2])
  exact ⟨h.1, h.2.1, h.2.2.1 libC _ h.2.2.2, h.2.2.2⟩

/-- Claim C4: every sample of every emitted batch carries a finite
longitude in degrees lying in the half-open interval [-180, 180),
whatever the library, math functions, catalog, instant, observer and
starting cache. -/
theorem c4_lon_range (L : SatLib) (M : JSMath) (satellites : List SatelliteData)
    (timestamp observerLat observerLon observerAlt : ℚ) (cache : Cache)
    (s : SatellitePosition)
    (hs : s ∈ (propagateSatellites L M satellites timestamp observerLat observerLon
      observerAlt cache).positions) :
    ∃ r : ℚ, s.position.lon = .fin r ∧ -180 ≤ r ∧ r < 180 := by
  obtain ⟨satellite, ro, _, hok⟩ :=
    runEntries_positions_mem L M timestamp satellites cache s hs
  obtain ⟨satrec, pos, vel, _, _, _, _, _, _, _, hlon, _, hsample⟩ :=
    processParsed_ok_inv L M timestamp satellite ro s hok
  obtain ⟨q, hq⟩ := (JSNum.isFinite_iff _).mp hlon
  refine ⟨normalizeLon (q * 180 / mathPI), ?_, (normalizeLon_mem _).1, (normalizeLon_mem _).2⟩
  rw [hsample]
  simp only [toSample]
  rw [hq]
  norm_num [jmul, jdiv, jadd, jsub, jmod, jnum, jpi, mathPI_ne_zero, normalizeLon]

/-- Witness for C4 on a concrete batch. -/
theorem c4_lon_range_witness :
    ∃ r : ℚ, sampleC.position.lon = .fin r ∧ -180 ≤ r ∧ r < 180 :=
  c4_lon_range libC mathC [satC] 0 0 0 0 [] sampleC
    (by rw [runC]; exact List.mem_singleton.mpr rfl)

/-- Claim C5: the ellipsoidal inversion uses the WGS84 constants
a = 6378.137 km and f = 1/298.257223563, takes its longitude directly from
atan2(y,x), initializes latitude from atan2(z, p·(1−e²)) with
p = sqrt(x²+y²), and refines it by exactly 5 iterations of the N/altitude
step — a fixed iteration count. -/
theorem c5_fixed_iteration (M : JSMath) (x y z : JSNum) :
    (ecefToGeodetic M x y z).longitude = jatan2 M y x ∧
    (ecefToGeodetic M x y z).latitude =
      (latStep M (jnum (6378137 / 1000))
          (jmul (jdiv (jnum 1) (jnum (298257223563 / 1000000000)))
            (jsub (jnum 2) (jdiv (jnum 1) (jnum (298257223563 / 1000000000)))))
          z (jsqrt M (jadd (jmul x x) (jmul y y))))^[5]
        (jatan2 M z (jmul (jsqrt M (jadd (jmul x x) (jmul y y)))
          (jsub (jnum 1)
            (jmul (jdiv (jnum 1) (jnum (298257223563 / 1000000000)))
              (jsub (jnum 2) (jdiv (jnum 1) (jnum (298257223563 / 1000000000)))))))) := by
  constructor
  · rfl
  · simp only [ecefToGeodetic]
    rw [latLoop_eq_iterate]

/-- Claim C6: in the batch path the visibility classifier's verdict is
never consulted — every sample of every emitted batch has visible = true,
for every catalog, instant and observer. -/
theorem c6_always_visible (L : SatLib) (M : JSMath) (satellites : List SatelliteData)
    (timestamp observerLat observerLon observerAlt : ℚ) (cache : Cache)
    (s : SatellitePosition)
    (hs : s ∈ (propagateSatellites L M satellites timestamp observerLat observerLon
      observerAlt cache).positions) :
    s.visible = true := by
  obtain ⟨satellite, ro, _, hok⟩ :=
    runEntries_positions_mem L M timestamp satellites cache s hs
  obtain ⟨satrec, pos, vel, _, _, _, _, _, _, _, _, _, hsample⟩ :=
    processParsed_ok_inv L M timestamp satellite ro s hok
  rw [hsample]
  rfl

/-- Witness for C6 on a concrete batch. -/
theorem c6_always_visible_witness :
    sampleC ∈ (propagateSatellites libC mathC [satC] 0 0 0 0 []).positions ∧
    sampleC.visible = true :=
  ⟨by rw [runC]; exact List.mem_singleton.mpr rfl,
   c6_always_visible libC mathC [satC] 0 0 0 0 [] sampleC
     (by rw [runC]; exact List.mem_singleton.mpr rfl)⟩

/-- Claim C7: the visibility classifier returns false below 200 km
regardless of observer; at or above 200 km it returns true exactly when
the haversine distance on the 6371 km sphere is under 2000 km; an object
at exactly 200 km directly below the observer is visible, and one at
199.999 km is not, regardless of its ground position. -/
theorem c7_visibility (M : JSMath) (position : LatLonAlt)
    (observerLat observerLon observerAlt : ℚ) :
    (position.alt < 200 →
      isSatelliteVisible M position observerLat observerLon observerAlt = false) ∧
    (¬position.alt < 200 →
      (isSatelliteVisible M position observerLat observerLon observerAlt = true ↔
        haversineDistance M observerLat observerLon position.lat position.lon < 2000)) ∧
    (M.sin 0 = 0 → M.sqrt 0 = 0 → M.sqrt 1 = 1 → M.atan2 0 1 = 0 →
      isSatelliteVisible M { lat := observerLat, lon := observerLon, alt := 200 }
        observerLat observerLon observerAlt = true) ∧
    isSatelliteVisible M { lat := position.lat, lon := position.lon, alt := 199999 / 1000 }
      observerLat observerLon observerAlt = false := by
  refine ⟨?_, ?_, ?_, ?_⟩
  · intro h
    simp [isSatelliteVisible, h]
  · intro h
    simp [isSatelliteVisible, haversineDistance, h]
  · intro hsin hsqrt0 hsqrt1 hatan2
    simp only [isSatelliteVisible]
    rw [if_neg (by norm_num)]
    have hd : (observerLat * mathPI / 180 - observerLat * mathPI / 180) / 2 = 0 := by ring
    have hd2 : (observerLon * mathPI / 180 - observerLon * mathPI / 180) / 2 = 0 := by ring
    rw [hd, hd2, hsin]
    norm_num [hsqrt0, hsqrt1, hatan2]
  · norm_num [isSatelliteVisible]

/-- Witness for C7: the boundary cases at a concrete observer. -/
theorem c7_visibility_witness :
    isSatelliteVisible mathC { lat := 3, lon := 4, alt := 200 } 3 4 0 = true ∧
    isSatelliteVisible mathC { lat := 9, lon := 9, alt := 199999 / 1000 } 3 4 0 = false :=
  ⟨(c7_visibility mathC { lat := 9, lon := 9, alt := 0 } 3 4 0).2.2.1 rfl rfl rfl rfl,
   (c7_visibility mathC { lat := 9, lon := 9, alt := 0 } 3 4 0).2.2.2⟩

/-- Claim C8, counterexample: a propagation result with finite position but
a non-finite velocity x-component is not treated as a failure; its sample
is emitted, carrying the non-finite velocity component. -/
theorem c8_counterexample :
    (propagateSatellites libC mathC [satC] 0 0 0 0 []).positions = [sampleC] ∧
    sampleC.velocity.x = .nonfin ∧
    (propagateSatellites libC mathC [satC] 0 0 0 0 []).propagatedCount = 1 := by
  refine ⟨by rw [runC], rfl, by rw [runC]⟩

/-- Claim C8 (amended): a missing or component-non-finite position, or a
missing velocity, makes the entry a propagation failure (dropped, not
counted as propagated); velocity components are not themselves checked for
finiteness, and every emitted sample stems from a present position with
finite components and a present velocity, whose ECF rotation it carries. -/
theorem c8_propagation (L : SatLib) (M : JSMath) (date : ℚ) (satellite : SatelliteData)
    (cache : Cache) (satrec : Satrec) (s : SatellitePosition) :
    ((parseTLE L satellite cache).1 = some satrec →
      (!satrec.no.isFinite || !satrec.ecco.isFinite || !satrec.inclo.isFinite) = false →
      propagationValid (L.propagate satrec date) = false →
      (processEntry L M date satellite cache).1 = .propFail) ∧
    ((processEntry L M date satellite cache).1 = .ok s →
      ∃ satrec' pos vel, (parseTLE L satellite cache).1 = some satrec' ∧
        (L.propagate satrec' date).position = some pos ∧
        pos.x.isFinite = true ∧ pos.y.isFinite = true ∧ pos.z.isFinite = true ∧
        (L.propagate satrec' date).velocity = some vel ∧
        s.velocity = { x := (L.eciToEcf vel (L.gstime date)).x,
                       y := (L.eciToEcf vel (L.gstime date)).y,
                       z := (L.eciToEcf vel (L.gstime date)).z }) := by
  constructor
  · intro hparse hsane hvalid
    have hfst : (processEntry L M date satellite cache).1 =
        processParsed L M date satellite (some satrec) := by
      unfold processEntry
      rw [hparse]
    rw [hfst]
    unfold propagationValid at hvalid
    cases hp : (L.propagate satrec date).position with
    | none => simp [processParsed, hsane, hp]
    | some pos =>
      rw [hp] at hvalid
      cases hv : (L.propagate satrec date).velocity with
      | none =>
        rcases hx : pos.x.isFinite <;> rcases hy : pos.y.isFinite <;>
          rcases hz : pos.z.isFinite <;>
          simp [processParsed, hsane, hp, hv, hx, hy, hz]
      | some vel =>
        rw [hv] at hvalid
        rcases hx : pos.x.isFinite <;> rcases hy : pos.y.isFinite <;>
          rcases hz : pos.z.isFinite <;>
          simp_all [processParsed, hsane, hp, hv]
  · intro hok
    rw [processEntry_fst] at hok
    obtain ⟨satrec', pos, vel, hro, hpos, hx, hy, hz, hvel, _, _, _, hsample⟩ :=
      processParsed_ok_inv L M date satellite _ s hok
    refine ⟨satrec', pos, vel, ?_, hpos, hx, hy, hz, hvel, ?_⟩
    · rw [parseTLE_fst]
      exact hro
    · rw [hsample]
      rfl

/-- Witness for the amended C8: a concrete non-finite position component is
classified as a propagation failure. -/
theorem c8_propagation_witness :
    (parseTLE libBad satC []).1 = some recC ∧
    propagationValid (libBad.propagate recC 0) = false ∧
    (processEntry libBad mathC 0 satC []).1 = .propFail := by
  have h1 : (parseTLE libBad satC []).1 = some recC := by
    simp [parseTLE, cacheFind, libBad]
  have h2 : propagationValid (libBad.propagate recC 0) = false := by
    simp [propagationValid, libBad, JSNum.isFinite]
  exact ⟨h1, h2, (c8_propagation libBad mathC 0 satC [] recC sampleC).1 h1
    (by simp [recC, JSNum.isFinite]) h2⟩

/-- Claim C9, counterexample: a catalog whose parse-failing first entry
shares its composite cache key with a later successfully parsed entry
produces 1 sample on the first run but 2 samples on the second run from
the cache the first run left behind — the batch is not idempotent. -/
theorem c9_counterexample :
    (propagateSatellites libC9 mathC [satX, satY] 0 0 0 0 []).positions = [sampleY9] ∧
    (propagateSatellites libC9 mathC [satX, satY] 0 0 0 0
        (propagateSatellites libC9 mathC [satX, satY] 0 0 0 0 []).cache).positions =
      [sampleX9, sampleY9] := by
  constructor
  · rw [runC9a]
  · simp [runC9a, runC9b]

/-- Claim C9 (amended): when no two catalog entries alias one composite
cache key with different TLE text, running the same batch twice — the
second run starting from the cache the first run left — yields identical
positions and identical counters, for any starting cache. -/
theorem c9_idempotent (L : SatLib) (M : JSMath) (satellites : List SatelliteData)
    (timestamp observerLat observerLon observerAlt : ℚ) (cache : Cache)
    (h : keysInjective satellites) :
    (propagateSatellites L M satellites timestamp observerLat observerLon observerAlt
        (propagateSatellites L M satellites timestamp observerLat observerLon observerAlt
          cache).cache).positions =
      (propagateSatellites L M satellites timestamp observerLat observerLon observerAlt
        cache).positions ∧
    (propagateSatellites L M satellites timestamp observerLat observerLon observerAlt
        (propagateSatellites L M satellites timestamp observerLat observerLon observerAlt
          cache).cache).parsedCount =
      (propagateSatellites L M satellites timestamp observerLat observerLon observerAlt
        cache).parsedCount ∧
    (propagateSatellites L M satellites timestamp observerLat observerLon observerAlt
        (propagateSatellites L M satellites timestamp observerLat observerLon observerAlt
          cache).cache).propagatedCount =
      (propagateSatellites L M satellites timestamp observerLat observerLon observerAlt
        cache).propagatedCount ∧
    (propagateSatellites L M satellites timestamp observerLat observerLon observerAlt
        (propagateSatellites L M satellites timestamp observerLat observerLon observerAlt
          cache).cache).geodeticCount =
      (propagateSatellites L M satellites timestamp observerLat observerLon observerAlt
        cache).geodeticCount := by
  have heff : ∀ s ∈ satellites,
      effectiveSatrec L (runEntries L M timestamp satellites cache).cache s =
        effectiveSatrec L cache s :=
    fun s hs => runEntries_effective L M timestamp satellites cache s
      (fun s2 hs2 hk => h s hs s2 hs2 hk)
  exact runEntries_congr L M timestamp satellites cache
    (runEntries L M timestamp satellites cache).cache h heff

/-- Witness for the amended C9 on a concrete collision-free catalog. -/
theorem c9_idempotent_witness :
    keysInjective [satC] ∧
    (propagateSatellites libC mathC [satC] 0 0 0 0
        (propagateSatellites libC mathC [satC] 0 0 0 0 []).cache).positions =
      (propagateSatellites libC mathC [satC] 0 0 0 0 []).positions := by
  have hk : keysInjective [satC] := by
    intro s1 h1 s2 h2 _
    rw [List.mem_singleton.mp h1, List.mem_singleton.mp h2]
  exact ⟨hk, (c9_idempotent libC mathC [satC] 0 0 0 0 [] hk).1⟩

/-- Claim C10: a PROPAGATE message with an absent timestamp, or with the
falsy timestamp 0 (the Unix epoch), is propagated at the current wall-clock
time `now`, and that substituted time is the one reported in the Positions
reply — the epoch instant itself cannot be requested. -/
theorem c10_timestamp (L : SatLib) (M : JSMath) (cache : Cache) (now : ℚ)
    (sats : List SatelliteData) (olat olon oalt : Option ℚ) :
    (onmessage L M cache now (.PROPAGATE (some ⟨some sats, none, olat, olon, oalt⟩))).1 =
      .POSITIONS
        (propagateSatellites L M sats now (orZero olat) (orZero olon) (orZero oalt)
          cache).positions
        now
        (propagateSatellites L M sats now (orZero olat) (orZero olon) (orZero oalt)
          cache).positions.length ∧
    (onmessage L M cache now (.PROPAGATE (some ⟨some sats, some 0, olat, olon, oalt⟩))).1 =
      .POSITIONS
        (propagateSatellites L M sats now (orZero olat) (orZero olon) (orZero oalt)
          cache).positions
        now
        (propagateSatellites L M sats now (orZero olat) (orZero olon) (orZero oalt)
          cache).positions.length := by
  constructor
  · rfl
  · simp [onmessage, orNow]
